import Mathlib

/-!
Shallow embedding of the process-supervisor and credential-store core of the
repository: `AnubisV2/service_manager.py` (class `ServiceManager`) and
`Anubis/soul/session_manager.py` (class `SessionManager`).

Python dicts are modelled as association lists with unique keys (insertion
order preserved, as CPython dicts do).  OS effects (process spawning,
signalling, the wall clock) are passed in as explicit oracle arguments, so
every operation is a pure function from the manager state and the oracle
outcome to a result and a new state.  Writing the backing JSON file is
modelled by a `disk` component of the state that `_save_services` overwrites.
-/

namespace Anubis

/-- Association-list lookup, modelling `d[k]` / `k in d` on a Python dict. -/
def alookup {α : Type} (k : String) : List (String × α) → Option α
  | [] => none
  | (k', v) :: rest => if k = k' then some v else alookup k rest

/-- Association-list insert-or-update, modelling `d[k] = v` on a Python dict:
an existing key keeps its position, a new key is appended. -/
def ainsert {α : Type} (k : String) (v : α) : List (String × α) → List (String × α)
  | [] => [(k, v)]
  | (k', v') :: rest => if k = k' then (k, v) :: rest else (k', v') :: ainsert k v rest

/-- Association-list delete, modelling `del d[k]` on a Python dict. -/
def aerase {α : Type} (k : String) : List (String × α) → List (String × α)
  | [] => []
  | (k', v') :: rest => if k = k' then rest else (k', v') :: aerase k rest

/-- Shallow merge, modelling Python `base.update(new)`: every key of `new` is
written into `base` (existing keys overwritten in place, fresh keys appended). -/
def dictUpdate (base new : List (String × String)) : List (String × String) :=
  new.foldl (fun acc kv => ainsert kv.1 kv.2 acc) base

/-- The `Service` dataclass of `service_manager.py` (lines 25-37), with the
same field defaults. -/
structure Service where
  name : String
  platform : String
  command : String
  pid : Option Nat := none
  status : String := "stopped"
  started_at : Option String := none
  log_file : String := ""
  auto_restart : Bool := true
  restart_count : Nat := 0
  max_restarts : Nat := 5
deriving Repr, DecidableEq

/-- What `ServiceManager._save_services` (lines 81-99) writes to disk for one
service: exactly the seven listed fields (`restart_count` and `max_restarts`
are not persisted). -/
structure PersistedService where
  name : String
  platform : String
  command : String
  pid : Option Nat
  started_at : Option String
  log_file : String
  auto_restart : Bool
deriving Repr, DecidableEq

/-- A tracked `subprocess.Popen` handle.  `poll` is the value `poll()` returns
at the time of the current call: `none` means the process is still running,
`some code` means it has terminated with that exit status. -/
structure Popen where
  pid : Nat
  poll : Option Int
deriving Repr, DecidableEq

/-- The mutable state of a `ServiceManager` instance: `self.services`,
`self.processes`, and the contents of `services.json` on disk. -/
structure SMState where
  services : List (String × Service)
  processes : List (String × Popen)
  disk : List (String × PersistedService)
deriving Repr, DecidableEq

/-- The result dict returned by `start_service` / `stop_service`: a `success`
flag plus the optional `pid`, `message` and `error` keys. -/
structure SvcResult where
  success : Bool
  pid : Option Nat := none
  message : Option String := none
  error : Option String := none
deriving Repr, DecidableEq

/-- Projection of a `Service` to its persisted form, as in
`_save_services` (lines 85-93). -/
def persistService (svc : Service) : PersistedService :=
  { name := svc.name, platform := svc.platform, command := svc.command,
    pid := svc.pid, started_at := svc.started_at, log_file := svc.log_file,
    auto_restart := svc.auto_restart }

/-- `ServiceManager._save_services` (lines 81-99): full rewrite of the
services file from the in-memory map. -/
def save_services (services : List (String × Service)) : List (String × PersistedService) :=
  services.map (fun nv => (nv.1, persistService nv.2))

/-- Reconstruction of one `Service` from its persisted form, as in
`_load_services` (lines 66-77): `status` is forced to `"stopped"`
(line 72, comment `Always start as stopped`), `restart_count` is passed as
`0` (line 76), `max_restarts` is left at its dataclass default `5`, and every
other field - including `pid` - is taken from the file. -/
def loadService (d : PersistedService) : Service :=
  { name := d.name, platform := d.platform, command := d.command,
    pid := d.pid, status := "stopped", started_at := d.started_at,
    log_file := d.log_file, auto_restart := d.auto_restart,
    restart_count := 0, max_restarts := 5 }

/-- `ServiceManager._load_services` (lines 60-79).  The services file is
`none` when missing (the `os.path.exists` guard), `some (Except.error e)`
when `json.load` raises (the `except` clause prints and leaves the map
empty), and `some (Except.ok data)` when it parses. -/
def load_services (file : Option (Except String (List (String × PersistedService)))) :
    List (String × Service) :=
  match file with
  | none => []
  | some (Except.error _) => []
  | some (Except.ok data) => data.map (fun nd => (nd.1, loadService nd.2))

/-- The `try` block of `start_service` (lines 130-160): `spawn` is the
outcome of `subprocess.Popen` - `Except.ok newPid` when the OS spawns the
process, `Except.error e` when opening the log file or spawning raises.  On
failure the record's status becomes `"crashed"` and the error text is
returned (nothing is persisted); on success the handle is tracked, the
record gets the new pid, `"running"` and the start time, and the map is
persisted. -/
def startLaunch (m : SMState) (name : String) (service : Service)
    (spawn : Except String Nat) (now : String) : SvcResult × SMState :=
  match spawn with
  | Except.error e =>
    ({ success := false, error := some e },
     { m with services := ainsert name { service with status := "crashed" } m.services })
  | Except.ok newPid =>
    let service := { service with
      pid := some newPid, status := "running", started_at := some now }
    let services := ainsert name service m.services
    ({ success := true, pid := some newPid,
       message := some ("Service " ++ name ++ " started with PID " ++ toString newPid) },
     { services := services,
       processes := ainsert name { pid := newPid, poll := none } m.processes,
       disk := save_services services })

/-- `ServiceManager.start_service` (lines 119-160).  An unregistered name is
an error (source wraps the name in single quotes, elided here); a tracked
handle whose `poll()` is `None` means already running and is an error
(lines 127-128); otherwise the launch is attempted. -/
def start_service (m : SMState) (name : String) (spawn : Except String Nat)
    (now : String) : SvcResult × SMState :=
  match alookup name m.services with
  | none => ({ success := false, error := some ("Service " ++ name ++ " not found") }, m)
  | some service =>
    match alookup name m.processes with
    | some p =>
      if p.poll = none then
        ({ success := false,
           error := some ("Service " ++ name ++ " is already running") }, m)
      else startLaunch m name service spawn now
    | none => startLaunch m name service spawn now

/-- Outcome of the signalling sequence in `stop_service` (lines 176-197):
`graceful` - SIGTERM delivered and the process exits within the 5 s grace
period; `forced` - SIGTERM delivered, `wait` times out and SIGKILL is sent;
`raises msg` - `os.getpgid` / `os.killpg` / `wait` raises (for example the
process group is already gone), caught by the `except` clause. -/
inductive StopOutcome where
  | graceful
  | forced
  | raises (msg : String)
deriving Repr, DecidableEq

/-- `ServiceManager.stop_service` (lines 162-197).  No tracked handle: the
record is marked `"stopped"`, persisted, and success is returned
(lines 169-172).  Tracked handle: on `graceful` and `forced` outcomes the
code after the signals runs - status `"stopped"`, `pid` cleared, handle
removed, map persisted; on `raises` the `except` clause returns the error
with no state change. -/
def stop_service (m : SMState) (name : String) (outcome : StopOutcome) :
    SvcResult × SMState :=
  match alookup name m.services with
  | none => ({ success := false, error := some ("Service " ++ name ++ " not found") }, m)
  | some service =>
    match alookup name m.processes with
    | none =>
      let services := ainsert name { service with status := "stopped" } m.services
      ({ success := true, message := some ("Service " ++ name ++ " was not running") },
       { m with services := services, disk := save_services services })
    | some _ =>
      match outcome with
      | StopOutcome.raises msg => ({ success := false, error := some msg }, m)
      | _ =>
        let services := ainsert name { service with status := "stopped", pid := none }
          m.services
        ({ success := true, message := some ("Service " ++ name ++ " stopped") },
         { services := services, processes := aerase name m.processes,
           disk := save_services services })

/-- The result dict of `get_service_status` (lines 205-231): `exists` plus,
when the service is registered, the listed record fields. -/
structure StatusResult where
  exists_ : Bool
  name : Option String := none
  platform : Option String := none
  status : Option String := none
  pid : Option Nat := none
  started_at : Option String := none
  restart_count : Option Nat := none
  log_file : Option String := none
deriving Repr, DecidableEq

/-- `ServiceManager.get_service_status` (lines 205-231).  With a tracked
handle the status is recomputed from `poll()` (`"running"` / `"crashed"`);
with no tracked handle the record's status is overwritten with `"stopped"`
(lines 219-220).  The recomputed status is written back into the record. -/
def get_service_status (m : SMState) (name : String) : StatusResult × SMState :=
  match alookup name m.services with
  | none => ({ exists_ := false }, m)
  | some service =>
    let newStatus :=
      match alookup name m.processes with
      | some p => if p.poll = none then "running" else "crashed"
      | none => "stopped"
    let service := { service with status := newStatus }
    ({ exists_ := true, name := some service.name, platform := some service.platform,
       status := some service.status, pid := service.pid,
       started_at := service.started_at, restart_count := some service.restart_count,
       log_file := some service.log_file },
     { m with services := ainsert name service m.services })

/-- The loop body of `start_all` (lines 259-264): `start_service` applied in
order to a list of names, threading the state; `spawns` gives each name its
spawn outcome. -/
def runStartAll (spawns : String → Except String Nat) (now : String) :
    List String → SMState → List (String × SvcResult) × SMState
  | [], m => ([], m)
  | n :: rest, m =>
    let step := start_service m n (spawns n) now
    let others := runStartAll spawns now rest step.2
    ((n, step.1) :: others.1, others.2)

/-- `ServiceManager.start_all` (lines 259-264): iterates over the keys of
`self.services`. -/
def start_all (m : SMState) (spawns : String → Except String Nat) (now : String) :
    List (String × SvcResult) × SMState :=
  runStartAll spawns now (m.services.map Prod.fst) m

/-- The loop body of `stop_all` (lines 266-271). -/
def runStopAll (outcomes : String → StopOutcome) :
    List String → SMState → List (String × SvcResult) × SMState
  | [], m => ([], m)
  | n :: rest, m =>
    let step := stop_service m n (outcomes n)
    let others := runStopAll outcomes rest step.2
    ((n, step.1) :: others.1, others.2)

/-- `ServiceManager.stop_all` (lines 266-271): iterates over
`list(self.processes.keys())` - only the services with a tracked handle, not
every registered service. -/
def stop_all (m : SMState) (outcomes : String → StopOutcome) :
    List (String × SvcResult) × SMState :=
  runStopAll outcomes (m.processes.map Prod.fst) m

/-- The `PlatformSession` dataclass of `session_manager.py` (lines 24-33),
with the same field defaults.  The free-form `Any` values of `credentials`,
`settings` and `metadata` are modelled as strings. -/
structure PlatformSession where
  platform : String
  credentials : List (String × String)
  created_at : String
  last_used : String
  is_active : Bool := false
  settings : List (String × String) := []
  metadata : List (String × String) := []
deriving Repr, DecidableEq

/-- The `APIKey` dataclass of `session_manager.py` (lines 59-68), with the
same field defaults (`tokens_remaining = -1` means unknown/unlimited). -/
structure APIKey where
  provider : String
  key : String
  added_at : String
  tokens_used : Int := 0
  tokens_remaining : Int := -1
  is_active : Bool := true
  last_used : String := ""
deriving Repr, DecidableEq

/-- The in-memory state of a `SessionManager` instance: `self.platforms` and
`self.api_keys` (the free-form `self.settings` map is not needed here). -/
structure SessionState where
  platforms : List (String × PlatformSession)
  api_keys : List (String × APIKey)
deriving Repr, DecidableEq

/-- The platform-file branch of `SessionManager._load_all` (lines 103-111):
missing file or a raising `json.load` leaves the map empty; otherwise the
parsed records are taken as-is. -/
def load_platforms (file : Option (Except String (List (String × PlatformSession)))) :
    List (String × PlatformSession) :=
  match file with
  | none => []
  | some (Except.error _) => []
  | some (Except.ok data) => data

/-- The API-key-file branch of `SessionManager._load_all` (lines 114-122):
same failure semantics as the platform file. -/
def load_api_keys (file : Option (Except String (List (String × APIKey)))) :
    List (String × APIKey) :=
  match file with
  | none => []
  | some (Except.error _) => []
  | some (Except.ok data) => data

/-- Python truthiness applied to the optional `settings` / `metadata`
arguments of `save_platform`: `if settings: session.settings.update(settings)`
runs the update only when the argument is neither `None` nor empty. -/
def pyUpdateOpt (base : List (String × String)) (new : Option (List (String × String))) :
    List (String × String) :=
  match new with
  | none => base
  | some s => if s.isEmpty then base else dictUpdate base s

/-- `SessionManager.save_platform` (lines 163-202).  Existing platform:
`credentials` replaced wholesale, `last_used` refreshed, `is_active` set,
`settings` and `metadata` shallow-merged via `dict.update` (lines 177-185).
New platform: a fresh record with the supplied fields and
`settings or {}` / `metadata or {}` (lines 186-196).  The record is stored
back and the file rewritten (lines 198-199). -/
def save_platform (m : SessionState) (platform : String)
    (credentials : List (String × String))
    (settings metadata : Option (List (String × String))) (now : String) :
    PlatformSession × SessionState :=
  let session :=
    match alookup platform m.platforms with
    | some session =>
      { session with
        credentials := credentials, last_used := now, is_active := true,
        settings := pyUpdateOpt session.settings settings,
        metadata := pyUpdateOpt session.metadata metadata }
    | none =>
      { platform := platform, credentials := credentials, created_at := now,
        last_used := now, is_active := true,
        settings := settings.getD [], metadata := metadata.getD [] }
  (session, { m with platforms := ainsert platform session m.platforms })

/-- `SessionManager.save_api_key` (lines 238-253): a brand-new `APIKey`
record is built with `added_at = last_used = now` and the dataclass defaults
for every other field, then stored under the provider key. -/
def save_api_key (m : SessionState) (provider key now : String) :
    APIKey × SessionState :=
  let api_key : APIKey := { provider := provider, key := key, added_at := now,
                            last_used := now }
  (api_key, { m with api_keys := ainsert provider api_key m.api_keys })

/-! ## Concrete states used to evaluate the operations -/

/-- A registered service whose process was started by this run. -/
def svcAlpha : Service :=
  { name := "alpha", platform := "telegram", command := "run-alpha",
    pid := some 42, status := "running", started_at := some "t0",
    log_file := "alpha.log" }

/-- The live tracked handle for `svcAlpha`: `poll()` returns `None`. -/
def procAlpha : Popen := { pid := 42, poll := none }

/-- A manager tracking one registered, live service. -/
def smRunning : SMState :=
  { services := [("alpha", svcAlpha)], processes := [("alpha", procAlpha)],
    disk := save_services [("alpha", svcAlpha)] }

/-- The persisted form of a service with a recorded pid. -/
def persAlpha : PersistedService :=
  { name := "alpha", platform := "telegram", command := "run-alpha",
    pid := some 42, started_at := some "t0", log_file := "alpha.log",
    auto_restart := true }

/-- A registered service that crashed at launch: status `"crashed"`, no
tracked handle. -/
def svcBeta : Service :=
  { name := "beta", platform := "discord", command := "run-beta",
    pid := some 7, status := "crashed", started_at := some "t0",
    log_file := "beta.log" }

/-- A manager with a crashed, untracked service. -/
def smCrashedNoHandle : SMState :=
  { services := [("beta", svcBeta)], processes := [], disk := [] }

/-- A registered service that was never started. -/
def svcGamma : Service :=
  { name := "gamma", platform := "whatsapp", command := "run-gamma" }

/-- Two registered services, only one of which has a tracked handle. -/
def smTwo : SMState :=
  { services := [("gamma", svcGamma), ("alpha", svcAlpha)],
    processes := [("alpha", procAlpha)], disk := [] }

/-- An existing platform record, as after `saveCredential("telegram",
{token:"A"}, metadata={x:1})`. -/
def sessTelegramA : PlatformSession :=
  { platform := "telegram", credentials := [("token", "A")], created_at := "t0",
    last_used := "t0", is_active := true, metadata := [("x", "1")] }

/-- A session store holding only `sessTelegramA`. -/
def ssTelegram : SessionState :=
  { platforms := [("telegram", sessTelegramA)], api_keys := [] }

/-- A stored API key with non-default usage counters and `is_active = false`. -/
def oldKey : APIKey :=
  { provider := "openai", key := "K-old", added_at := "t0", tokens_used := 500,
    tokens_remaining := 100, is_active := false, last_used := "t0" }

/-- A session store holding only `oldKey`. -/
def ssOpenai : SessionState :=
  { platforms := [], api_keys := [("openai", oldKey)] }

/-! ## Association-list lemmas -/

theorem alookup_ainsert_self {α : Type} (k : String) (v : α) (l : List (String × α)) :
    alookup k (ainsert k v l) = some v := by
  induction l with
  | nil => simp [ainsert, alookup]
  | cons hd tl ih =>
    by_cases h : k = hd.1
    · simp [ainsert, alookup, h]
    · simp [ainsert, alookup, h, ih]

theorem alookup_ainsert_ne {α : Type} {k k' : String} (v : α) (l : List (String × α))
    (h : k ≠ k') : alookup k (ainsert k' v l) = alookup k l := by
  induction l with
  | nil => simp [ainsert, alookup, h]
  | cons hd tl ih =>
    by_cases h' : k' = hd.1
    · subst h'
      simp [ainsert, alookup, h]
    · by_cases h'' : k = hd.1
      · simp [ainsert, alookup, h', h'']
      · simp [ainsert, alookup, h', h'', ih]

theorem alookup_eq_none_of_not_mem {α : Type} {k : String} {l : List (String × α)}
    (h : k ∉ l.map Prod.fst) : alookup k l = none := by
  induction l with
  | nil => rfl
  | cons hd tl ih =>
    simp only [List.map_cons, List.mem_cons, not_or] at h
    simp [alookup, h.1, ih h.2]

theorem alookup_aerase_self {α : Type} (k : String) (l : List (String × α))
    (h : (l.map Prod.fst).Nodup) : alookup k (aerase k l) = none := by
  induction l with
  | nil => rfl
  | cons hd tl ih =>
    simp only [List.map_cons, List.nodup_cons] at h
    by_cases hk : k = hd.1
    · subst hk
      simp [aerase, alookup_eq_none_of_not_mem h.1]
    · simp [aerase, alookup, hk, ih h.2]

theorem alookup_map {α β : Type} (k : String) (f : α → β) (l : List (String × α)) :
    alookup k (l.map fun nv => (nv.1, f nv.2)) = (alookup k l).map f := by
  induction l with
  | nil => rfl
  | cons hd tl ih =>
    by_cases h : k = hd.1
    · simp [alookup, h]
    · simp [alookup, h, ih]

/-- Lookup in a Python-style `base.update(new)` merge: a key bound in `new`
wins, any other key keeps its binding from `base`.  `new` has unique keys,
as every Python dict does. -/
theorem alookup_dictUpdate (k : String) (base new : List (String × String))
    (h : (new.map Prod.fst).Nodup) :
    alookup k (dictUpdate base new) = (alookup k new).orElse fun _ => alookup k base := by
  induction new generalizing base with
  | nil => simp [dictUpdate, alookup]
  | cons hd tl ih =>
    simp only [List.map_cons, List.nodup_cons] at h
    have step : dictUpdate base (hd :: tl) = dictUpdate (ainsert hd.1 hd.2 base) tl := rfl
    rw [step, ih _ h.2]
    by_cases hk : k = hd.1
    · subst hk
      simp [alookup, alookup_eq_none_of_not_mem h.1, alookup_ainsert_self]
    · simp [alookup, hk, alookup_ainsert_ne _ _ hk]

/-! ## Batch-operation lemmas -/

/-- `runStartAll` produces exactly one result per requested name, in order,
whatever the individual outcomes are. -/
theorem runStartAll_keys (spawns : String → Except String Nat) (now : String)
    (names : List String) (m : SMState) :
    (runStartAll spawns now names m).1.map Prod.fst = names := by
  induction names generalizing m with
  | nil => rfl
  | cons hd tl ih => simp [runStartAll, ih]

/-- `runStopAll` produces exactly one result per requested name, in order,
whatever the individual outcomes are. -/
theorem runStopAll_keys (outcomes : String → StopOutcome)
    (names : List String) (m : SMState) :
    (runStopAll outcomes names m).1.map Prod.fst = names := by
  induction names generalizing m with
  | nil => rfl
  | cons hd tl ih => simp [runStopAll, ih]

/-! ## C1 - start on an already-running service -/

/-- C1, as stated, is false: with a live tracked handle (`poll()` is `None`)
`start_service` returns `success = False` with an `already running` error
(service_manager.py lines 127-128), not a success result. -/
theorem c1_counterexample :
    alookup "alpha" smRunning.processes = some { pid := 42, poll := none } ∧
    (start_service smRunning "alpha" (Except.ok 99) "t1").1.success = false := by
  exact ⟨rfl, rfl⟩

/-- C1 amended: for every registered service whose tracked handle is live,
`start_service` returns a FAILURE result (`success = False`, error
`already running`), spawns nothing, and leaves the whole manager state -
including the service's pid - unchanged. -/
theorem c1_start_already_running (m : SMState) (name : String) (svc : Service)
    (p : Popen) (spawn : Except String Nat) (now : String)
    (hs : alookup name m.services = some svc)
    (hp : alookup name m.processes = some p)
    (hr : p.poll = none) :
    (start_service m name spawn now).1.success = false ∧
    (start_service m name spawn now).1.error =
      some ("Service " ++ name ++ " is already running") ∧
    (start_service m name spawn now).2 = m := by
  simp [start_service, hs, hp, hr]

/-- C1 amended, evaluated on `smRunning`. -/
theorem c1_witness :
    (start_service smRunning "alpha" (Except.ok 99) "t1").1.success = false ∧
    (start_service smRunning "alpha" (Except.ok 99) "t1").1.error =
      some ("Service " ++ "alpha" ++ " is already running") ∧
    (start_service smRunning "alpha" (Except.ok 99) "t1").2 = smRunning :=
  c1_start_already_running smRunning "alpha" svcAlpha procAlpha (Except.ok 99) "t1"
    rfl rfl rfl

/-! ## C2 - loading the services file -/

/-- C2, as stated, is false: a persisted record with `pid = 42` loads with
`pid = 42`, not `pid = null` (`_load_services` line 71 passes the persisted
pid through; only `status` is normalized). -/
theorem c2_counterexample :
    (alookup "alpha" (load_services (some (Except.ok [("alpha", persAlpha)])))).map
        Service.pid = some (some 42) ∧
    (alookup "alpha" (load_services (some (Except.ok [("alpha", persAlpha)])))).map
        Service.pid ≠ some none := by
  exact ⟨rfl, by decide⟩

/-- C2 amended: every record loaded from a parsed services file keeps the
persisted field values - including `pid` - except that `status` is
normalized to `"stopped"` and `restart_count` is reset to `0`
(`max_restarts` takes its dataclass default `5`, it is never persisted). -/
theorem c2_load_normalizes (data : List (String × PersistedService)) (name : String)
    (svc : Service)
    (h : alookup name (load_services (some (Except.ok data))) = some svc) :
    ∃ d, alookup name data = some d ∧
      svc.name = d.name ∧ svc.platform = d.platform ∧ svc.command = d.command ∧
      svc.pid = d.pid ∧ svc.status = "stopped" ∧ svc.started_at = d.started_at ∧
      svc.log_file = d.log_file ∧ svc.auto_restart = d.auto_restart ∧
      svc.restart_count = 0 ∧ svc.max_restarts = 5 := by
  have h' : (alookup name data).map loadService = some svc := by
    rw [← alookup_map]
    exact h
  cases hd : alookup name data with
  | none => rw [hd] at h'; simp at h'
  | some d =>
    rw [hd] at h'
    simp at h'
    exact ⟨d, rfl, by simp [← h', loadService]⟩

/-- C2 amended, evaluated on a one-record file with a persisted pid. -/
theorem c2_witness :
    ∃ d, alookup "alpha" [("alpha", persAlpha)] = some d ∧
      (loadService persAlpha).name = d.name ∧
      (loadService persAlpha).platform = d.platform ∧
      (loadService persAlpha).command = d.command ∧
      (loadService persAlpha).pid = d.pid ∧
      (loadService persAlpha).status = "stopped" ∧
      (loadService persAlpha).started_at = d.started_at ∧
      (loadService persAlpha).log_file = d.log_file ∧
      (loadService persAlpha).auto_restart = d.auto_restart ∧
      (loadService persAlpha).restart_count = 0 ∧
      (loadService persAlpha).max_restarts = 5 :=
  c2_load_normalizes [("alpha", persAlpha)] "alpha" (loadService persAlpha) rfl

/-! ## C3 - stop on a service with a tracked live handle -/

/-- C3, as stated, is false: when the signalling sequence raises (the
`except` clause, service_manager.py lines 196-197), `stop_service` returns
the error and leaves the tracked handle in place and the record unchanged -
it does not clear the handle or persist `stopped`/`null` in that case. -/
theorem c3_counterexample :
    (stop_service smRunning "alpha" (StopOutcome.raises "boom")).1.success = false ∧
    alookup "alpha"
      (stop_service smRunning "alpha" (StopOutcome.raises "boom")).2.processes =
        some procAlpha ∧
    (alookup "alpha"
      (stop_service smRunning "alpha" (StopOutcome.raises "boom")).2.services).map
        Service.status = some "running" := by
  exact ⟨rfl, rfl, rfl⟩

/-- C3 amended: for a registered service with a tracked handle, when no
signalling error is raised - whether the process exited on the graceful
signal or had to be force-killed - stop removes the handle, sets
`status = "stopped"` and `pid = null`, and persists the map; when
signalling raises, stop returns the error and leaves the state unchanged. -/
theorem c3_stop_live_handle (m : SMState) (name : String) (svc : Service) (p : Popen)
    (hs : alookup name m.services = some svc)
    (hp : alookup name m.processes = some p)
    (hnd : (m.processes.map Prod.fst).Nodup) :
    (∀ o, (o = StopOutcome.graceful ∨ o = StopOutcome.forced) →
      (stop_service m name o).1.success = true ∧
      alookup name (stop_service m name o).2.processes = none ∧
      alookup name (stop_service m name o).2.services =
        some { svc with status := "stopped", pid := none } ∧
      (stop_service m name o).2.disk =
        save_services (stop_service m name o).2.services) ∧
    (∀ msg, stop_service m name (StopOutcome.raises msg) =
      ({ success := false, error := some msg }, m)) := by
  constructor
  · rintro o (rfl | rfl) <;>
      simp [stop_service, hs, hp, alookup_ainsert_self, alookup_aerase_self _ _ hnd]
  · intro msg
    simp [stop_service, hs, hp]

/-- C3 amended, evaluated on `smRunning` for the graceful and the raising
outcomes. -/
theorem c3_witness :
    (stop_service smRunning "alpha" StopOutcome.graceful).1.success = true ∧
    alookup "alpha"
      (stop_service smRunning "alpha" StopOutcome.graceful).2.processes = none ∧
    stop_service smRunning "alpha" (StopOutcome.raises "boom") =
      ({ success := false, error := some "boom" }, smRunning) := by
  have T := c3_stop_live_handle smRunning "alpha" svcAlpha procAlpha rfl rfl (by decide)
  exact ⟨(T.1 StopOutcome.graceful (Or.inl rfl)).1,
         (T.1 StopOutcome.graceful (Or.inl rfl)).2.1,
         T.2 "boom"⟩

/-! ## C4 - save_platform merge semantics -/

/-- C4: for an existing platform, `save_platform` replaces `credentials`
wholesale, sets `is_active`, refreshes `last_used`, keeps `created_at`, and
shallow-merges `settings` and `metadata` (a key bound in the supplied map
wins, any other key keeps its old binding); for an unknown platform it
creates a fresh record with the supplied fields; the resulting record is
stored under the platform key.  The supplied maps come from Python dicts,
so their keys are unique. -/
theorem c4_save_platform (m : SessionState) (platform : String)
    (creds : List (String × String))
    (s md : Option (List (String × String))) (now : String)
    (hnds : ∀ l, s = some l → (l.map Prod.fst).Nodup)
    (hndm : ∀ l, md = some l → (l.map Prod.fst).Nodup) :
    (∀ old, alookup platform m.platforms = some old →
      (save_platform m platform creds s md now).1.credentials = creds ∧
      (save_platform m platform creds s md now).1.is_active = true ∧
      (save_platform m platform creds s md now).1.last_used = now ∧
      (save_platform m platform creds s md now).1.created_at = old.created_at ∧
      (∀ k, alookup k (save_platform m platform creds s md now).1.settings =
        ((alookup k (s.getD [])).orElse fun _ => alookup k old.settings)) ∧
      (∀ k, alookup k (save_platform m platform creds s md now).1.metadata =
        ((alookup k (md.getD [])).orElse fun _ => alookup k old.metadata))) ∧
    (alookup platform m.platforms = none →
      (save_platform m platform creds s md now).1 =
        { platform := platform, credentials := creds, created_at := now,
          last_used := now, is_active := true, settings := s.getD [],
          metadata := md.getD [] }) ∧
    alookup platform (save_platform m platform creds s md now).2.platforms =
      some (save_platform m platform creds s md now).1 := by
  refine ⟨?_, ?_, ?_⟩
  · intro old hold
    refine ⟨by simp [save_platform, hold], by simp [save_platform, hold],
            by simp [save_platform, hold], by simp [save_platform, hold], ?_, ?_⟩
    · intro k
      cases s with
      | none => simp [save_platform, hold, pyUpdateOpt, alookup]
      | some l =>
        cases l with
        | nil => simp [save_platform, hold, pyUpdateOpt, alookup]
        | cons a t =>
          have hnd := hnds (a :: t) rfl
          simp [save_platform, hold, pyUpdateOpt, alookup_dictUpdate _ _ _ hnd]
    · intro k
      cases md with
      | none => simp [save_platform, hold, pyUpdateOpt, alookup]
      | some l =>
        cases l with
        | nil => simp [save_platform, hold, pyUpdateOpt, alookup]
        | cons a t =>
          have hnd := hndm (a :: t) rfl
          simp [save_platform, hold, pyUpdateOpt, alookup_dictUpdate _ _ _ hnd]
  · intro hnone
    simp [save_platform, hnone]
  · cases hold : alookup platform m.platforms <;>
      simp [save_platform, hold, alookup_ainsert_self]

/-- C4, evaluated on the spec's own scenario: after
`saveCredential("telegram", {token:"A"}, metadata={x:1})` a second call
`saveCredential("telegram", {token:"B"}, metadata={y:2})` yields
`credentials = {token:"B"}` (full replace) and `metadata = {x:1, y:2}`
(merge), with `is_active` set and `created_at` kept. -/
theorem c4_witness :
    (save_platform ssTelegram "telegram" [("token", "B")] none
      (some [("y", "2")]) "t1").1.credentials = [("token", "B")] ∧
    (save_platform ssTelegram "telegram" [("token", "B")] none
      (some [("y", "2")]) "t1").1.created_at = "t0" ∧
    alookup "x" (save_platform ssTelegram "telegram" [("token", "B")] none
      (some [("y", "2")]) "t1").1.metadata = some "1" ∧
    alookup "y" (save_platform ssTelegram "telegram" [("token", "B")] none
      (some [("y", "2")]) "t1").1.metadata = some "2" := by
  have T := c4_save_platform ssTelegram "telegram" [("token", "B")] none
    (some [("y", "2")]) "t1" (fun l h => by cases h) (fun l h => by cases h; decide)
  have U := T.1 sessTelegramA rfl
  refine ⟨U.1, ?_, ?_, ?_⟩
  · rw [U.2.2.2.1]
    rfl
  · have := U.2.2.2.2.2 "x"
    rw [this]
    rfl
  · have := U.2.2.2.2.2 "y"
    rw [this]
    rfl

/-! ## C5 - status query -/

/-- C5, as stated, is false: with no tracked handle the query does not
report the record's last-known status - it overwrites it with `"stopped"`
(`get_service_status` lines 219-220).  Here the record says `"crashed"` but
the query reports `"stopped"`. -/
theorem c5_counterexample :
    (alookup "beta" smCrashedNoHandle.services).map Service.status =
      some "crashed" ∧
    (get_service_status smCrashedNoHandle "beta").1.status = some "stopped" := by
  exact ⟨rfl, rfl⟩

/-- C5 amended: for a registered service, the status query reports
`"running"` when a tracked handle polls as live, `"crashed"` when a tracked
handle polls as terminated, and `"stopped"` whenever no handle is tracked -
regardless of the record's last-known status. -/
theorem c5_status_query (m : SMState) (name : String) (svc : Service)
    (hs : alookup name m.services = some svc) :
    (get_service_status m name).1.exists_ = true ∧
    (∀ p, alookup name m.processes = some p → p.poll = none →
      (get_service_status m name).1.status = some "running") ∧
    (∀ p c, alookup name m.processes = some p → p.poll = some c →
      (get_service_status m name).1.status = some "crashed") ∧
    (alookup name m.processes = none →
      (get_service_status m name).1.status = some "stopped") := by
  refine ⟨by simp [get_service_status, hs], ?_, ?_, ?_⟩
  · intro p hp hr
    simp [get_service_status, hs, hp, hr]
  · intro p c hp hc
    simp [get_service_status, hs, hp, hc]
  · intro hp
    simp [get_service_status, hs, hp]

/-- C5 amended, evaluated on a live tracked handle and on an untracked
crashed record. -/
theorem c5_witness :
    (get_service_status smRunning "alpha").1.status = some "running" ∧
    (get_service_status smCrashedNoHandle "beta").1.status = some "stopped" :=
  ⟨(c5_status_query smRunning "alpha" svcAlpha rfl).2.1 procAlpha rfl rfl,
   (c5_status_query smCrashedNoHandle "beta" svcBeta rfl).2.2.2 rfl⟩

/-! ## C6 - stop on a service with no tracked handle -/

/-- C6: for a registered service with no tracked handle, `stop_service`
returns success with the `was not running` message and no error, whatever
the signalling oracle would have said. -/
theorem c6_stop_not_tracked (m : SMState) (name : String) (svc : Service)
    (o : StopOutcome)
    (hs : alookup name m.services = some svc)
    (hp : alookup name m.processes = none) :
    (stop_service m name o).1.success = true ∧
    (stop_service m name o).1.error = none ∧
    (stop_service m name o).1.message =
      some ("Service " ++ name ++ " was not running") := by
  simp [stop_service, hs, hp]

/-- C6, evaluated on the untracked service of `smCrashedNoHandle`. -/
theorem c6_witness :
    (stop_service smCrashedNoHandle "beta" StopOutcome.graceful).1.success = true ∧
    (stop_service smCrashedNoHandle "beta" StopOutcome.graceful).1.error = none ∧
    (stop_service smCrashedNoHandle "beta" StopOutcome.graceful).1.message =
      some ("Service " ++ "beta" ++ " was not running") :=
  c6_stop_not_tracked smCrashedNoHandle "beta" svcBeta StopOutcome.graceful rfl rfl

/-! ## C7 - launch failure -/

/-- C7: for a registered service that is not tracked as live, when the
spawn raises, `start_service` returns a failure result carrying exactly the
underlying error text (the exception is caught, never propagated), sets the
record's status to `"crashed"`, and tracks no handle. -/
theorem c7_start_launch_failure (m : SMState) (name : String) (svc : Service)
    (e : String) (now : String)
    (hs : alookup name m.services = some svc)
    (hp : ∀ p, alookup name m.processes = some p → p.poll ≠ none) :
    (start_service m name (Except.error e) now).1 =
      { success := false, error := some e } ∧
    alookup name (start_service m name (Except.error e) now).2.services =
      some { svc with status := "crashed" } ∧
    (start_service m name (Except.error e) now).2.processes = m.processes := by
  cases hpp : alookup name m.processes with
  | none => simp [start_service, hs, hpp, startLaunch, alookup_ainsert_self]
  | some p =>
    have hne := hp p hpp
    simp [start_service, hs, hpp, hne, startLaunch, alookup_ainsert_self]

/-- C7, evaluated on an untracked registered service with a failing spawn. -/
theorem c7_witness :
    (start_service smCrashedNoHandle "beta" (Except.error "No such file") "t1").1 =
      { success := false, error := some "No such file" } ∧
    alookup "beta"
      (start_service smCrashedNoHandle "beta" (Except.error "No such file") "t1").2.services =
        some { svcBeta with status := "crashed" } ∧
    (start_service smCrashedNoHandle "beta" (Except.error "No such file") "t1").2.processes =
      smCrashedNoHandle.processes :=
  c7_start_launch_failure smCrashedNoHandle "beta" svcBeta "No such file" "t1" rfl
    (fun p h => by simp [smCrashedNoHandle, alookup] at h)

/-! ## C8 - batch start/stop -/

/-- C8, as stated, is false: `stop_all` iterates over
`list(self.processes.keys())` (line 269), not over every registered
service.  Here `"gamma"` is registered but untracked and is absent from the
result map. -/
theorem c8_counterexample :
    smTwo.services.map Prod.fst = ["gamma", "alpha"] ∧
    (stop_all smTwo (fun _ => StopOutcome.graceful)).1.map Prod.fst = ["alpha"] := by
  exact ⟨rfl, rfl⟩

/-- C8 amended: `start_all` returns one result per REGISTERED service (in
registration order) and `stop_all` one result per service with a TRACKED
handle, whatever each individual spawn or signalling outcome is - so one
service's failure never aborts or drops the others, and every processed
service is reported distinctly under its own name. -/
theorem c8_batch_results (m : SMState) (spawns : String → Except String Nat)
    (now : String) (outcomes : String → StopOutcome) :
    (start_all m spawns now).1.map Prod.fst = m.services.map Prod.fst ∧
    (stop_all m outcomes).1.map Prod.fst = m.processes.map Prod.fst :=
  ⟨runStartAll_keys spawns now (m.services.map Prod.fst) m,
   runStopAll_keys outcomes (m.processes.map Prod.fst) m⟩

/-! ## C9 - missing or unparsable backing files -/

/-- C9: when a backing file (platforms, API keys, or services) is missing
or unparsable, the corresponding store loads as empty; the load functions
are total, so construction never fails. -/
theorem c9_load_missing_or_unparsable
    (pf : Option (Except String (List (String × PlatformSession))))
    (kf : Option (Except String (List (String × APIKey))))
    (sf : Option (Except String (List (String × PersistedService))))
    (hpf : pf = none ∨ ∃ e, pf = some (Except.error e))
    (hkf : kf = none ∨ ∃ e, kf = some (Except.error e))
    (hsf : sf = none ∨ ∃ e, sf = some (Except.error e)) :
    load_platforms pf = [] ∧ load_api_keys kf = [] ∧ load_services sf = [] := by
  refine ⟨?_, ?_, ?_⟩
  · rcases hpf with rfl | ⟨e, rfl⟩ <;> rfl
  · rcases hkf with rfl | ⟨e, rfl⟩ <;> rfl
  · rcases hsf with rfl | ⟨e, rfl⟩ <;> rfl

/-- C9, evaluated on a missing platforms file, an unparsable API-keys file
and a missing services file. -/
theorem c9_witness :
    load_platforms none = [] ∧
    load_api_keys (some (Except.error "Expecting value")) = [] ∧
    load_services none = [] :=
  c9_load_missing_or_unparsable none (some (Except.error "Expecting value")) none
    (Or.inl rfl) (Or.inr ⟨"Expecting value", rfl⟩) (Or.inl rfl)

/-! ## C10 - save_api_key replaces wholesale -/

/-- C10: for a provider that already has a stored key record,
`save_api_key` builds a brand-new record - `tokens_used = 0`,
`tokens_remaining = -1`, `is_active = true`, `added_at = last_used = now` -
carrying nothing over from the old record, and stores it under the
provider key. -/
theorem c10_save_api_key_resets (m : SessionState) (provider key now : String)
    (old : APIKey)
    (h : alookup provider m.api_keys = some old) :
    (save_api_key m provider key now).1 =
      { provider := provider, key := key, added_at := now, tokens_used := 0,
        tokens_remaining := -1, is_active := true, last_used := now } ∧
    alookup provider (save_api_key m provider key now).2.api_keys =
      some (save_api_key m provider key now).1 := by
  exact ⟨rfl, by simp [save_api_key, alookup_ainsert_self]⟩

/-- C10, evaluated on a store whose old record has non-zero usage counters
and `is_active = false`. -/
theorem c10_witness :
    (save_api_key ssOpenai "openai" "K-new" "t1").1 =
      { provider := "openai", key := "K-new", added_at := "t1", tokens_used := 0,
        tokens_remaining := -1, is_active := true, last_used := "t1" } ∧
    alookup "openai" (save_api_key ssOpenai "openai" "K-new" "t1").2.api_keys =
      some (save_api_key ssOpenai "openai" "K-new" "t1").1 :=
  c10_save_api_key_resets ssOpenai "openai" "K-new" "t1" oldKey rfl

end Anubis
